import Mathlib

/-!
Verification of `lambda/auth.go` (scaleway-functions-go): a shallow embedding
of the `authenticate` middleware and proofs of the specified properties.

The Go file authenticates an HTTP request by checking a public-function flag,
reading a token header, loading a PEM/PKCS#1 RSA public key, verifying a JWT
against it, decoding a custom `application_claim` field, and matching the
first decoded claim against the runtime's namespace/application identity.

External collaborators (the jwt library's token verification and the
encoding/json round trip) are not part of the repository's source; they are
modelled from the spec where the claims depend on their behaviour, with the
cryptographic signature check kept abstract. The control flow, error routing
and comparisons of `authenticate` itself are translated directly from
`src/lambda/auth.go`.
-/

/-- A JSON-like claim value, the dynamic values stored in the jwt library's
`MapClaims` map after decoding a token payload. -/
inductive ClaimValue where
  | null : ClaimValue
  | bool : Bool → ClaimValue
  | num : Int → ClaimValue
  | str : String → ClaimValue
  | arr : List ClaimValue → ClaimValue
  | obj : List (String × ClaimValue) → ClaimValue

/-- The decoded claim set of a verified token: `jwt.MapClaims`, a mapping
from claim name to dynamic value. -/
abbrev MapClaims := List (String × ClaimValue)

/-- Map lookup on a decoded claim set (`claims["application_claim"]` in Go;
a Go map has no duplicate keys, so first-match lookup is faithful). -/
def lookupClaim (m : MapClaims) (key : String) : Option ClaimValue :=
  match m with
  | [] => none
  | (k, v) :: rest => if k = key then some v else lookupClaim rest key

/-- `ApplicationClaim` from auth.go: the claims related to an application,
composed of either NamespaceID or ApplicationID of the linked JWT. -/
structure ApplicationClaim where
  NamespaceID : String
  ApplicationID : String
deriving DecidableEq, Repr

/-- Errors the jwt library can return from `ParseWithClaims`
(modelled abstractly: each distinct library failure is one constructor). -/
inductive JwtError where
  | malformed : JwtError
  | invalidSigningAlg : JwtError
  | signatureInvalid : JwtError
  | expired : JwtError
  | notYetValid : JwtError
deriving DecidableEq, Repr

/-- Errors the encoding/json library can return from `Unmarshal`
(modelled abstractly: a structural type mismatch). -/
inductive JsonError where
  | typeMismatch : JsonError
deriving DecidableEq, Repr

/-- The verdict error of `authenticate`: one of the five package-level
errors declared in auth.go lines 28-34, or a raw library error propagated
unchanged (auth.go returns jwt and json errors as-is). -/
inductive AuthError where
  | invalidClaims : AuthError
  | invalidPublicKey : AuthError
  | emptyRequestToken : AuthError
  | invalidApplication : AuthError
  | invalidNamespace : AuthError
  | jwtError : JwtError → AuthError
  | jsonError : JsonError → AuthError
deriving DecidableEq, Repr

/-- Whether an error is one of the five stable named errors declared by the
package (`errors.New(...)` in auth.go lines 28-34), as opposed to a raw
error value propagated from the jwt or json library. -/
def AuthError.isDeclaredError : AuthError → Bool
  | .invalidClaims => true
  | .invalidPublicKey => true
  | .emptyRequestToken => true
  | .invalidApplication => true
  | .invalidNamespace => true
  | .jwtError _ => false
  | .jsonError _ => false

/-- An RSA public key as produced by `x509.ParsePKCS1PublicKey`
(modulus and exponent; the code treats it as opaque). -/
structure RSAPublicKey where
  n : Nat
  e : Nat
deriving DecidableEq, Repr

/-- A decoded PEM block's bytes (`block.Bytes` in Go). -/
abbrev PemBlock := List Nat

/-- JWT signing algorithms as declared in a token header's `alg` field. -/
inductive Alg where
  | RS256 | RS384 | RS512
  | PS256 | PS384 | PS512
  | HS256 | HS384 | HS512
  | ES256 | ES384 | ES512
  | noAlg
  | otherAlg
deriving DecidableEq, Repr

/-- Whether an algorithm belongs to the RSA-signature family, i.e. the
methods the jwt library can verify with an `rsa.PublicKey`. -/
def Alg.isRSAFamily : Alg → Bool
  | .RS256 => true
  | .RS384 => true
  | .RS512 => true
  | .PS256 => true
  | .PS384 => true
  | .PS512 => true
  | _ => false

/-- A structurally well-formed compact token: header algorithm and decoded
payload claims (the signature bytes are abstracted into `World.rsaVerify`). -/
structure Token where
  alg : Alg
  claims : MapClaims

/-- The abstract collaborators of `authenticate`: the PEM decoder, the
PKCS#1 parser, the compact-token splitter and the RSA signature check are
library code whose internals the claims do not depend on, so they are kept
as abstract functions; `now` is the clock used by temporal validation. -/
structure World where
  pemDecode : String → Option PemBlock
  parsePKCS1PublicKey : PemBlock → Option RSAPublicKey
  parseCompact : String → Option Token
  rsaVerify : RSAPublicKey → Token → Bool
  now : Int

/-- The environment variables read by `authenticate` (`os.Getenv` returns
the empty string when a variable is unset). -/
structure Env where
  scwPublic : String
  scwPublicKey : String
  scwApplicationID : String
  scwNamespaceID : String

/-- The request data `authenticate` reads: the SCW_FUNCTIONS_TOKEN header,
`none` when the header is absent. -/
structure Request where
  scwFunctionsToken : Option String

/-- `req.Header.Get("SCW_FUNCTIONS_TOKEN")`: the header's value, or the
empty string when the header is absent. -/
def Request.getToken (r : Request) : String :=
  r.scwFunctionsToken.getD ""

/-- Modelled from the spec: expiry validation of the standard temporal
claims — expiry, when present and numeric, must not be in the past; its
absence is not an error (Token Verifier, spec 4.2). -/
def expOk (m : MapClaims) (now : Int) : Bool :=
  match lookupClaim m "exp" with
  | some (.num e) => decide (now ≤ e)
  | _ => true

/-- Modelled from the spec: not-before validation of the standard temporal
claims — not-before, when present and numeric, must not be in the future;
its absence is not an error (Token Verifier, spec 4.2). -/
def nbfOk (m : MapClaims) (now : Int) : Bool :=
  match lookupClaim m "nbf" with
  | some (.num nbf) => decide (nbf ≤ now)
  | _ => true

/-- Modelled from the spec: the jwt library's `ParseWithClaims` with a
key-function returning an RSA public key (Token Verifier, spec 4.2, absent
from src/). It parses the compact token, rejects a declared algorithm
outside the RSA-signature family, verifies the signature with the provided
key, validates the temporal bounds, and on success returns the decoded
claim set. -/
def verifyJWT (w : World) (key : RSAPublicKey) (s : String) :
    Except JwtError MapClaims :=
  match w.parseCompact s with
  | none => .error .malformed
  | some tok =>
    if tok.alg.isRSAFamily = false then .error .invalidSigningAlg
    else if w.rsaVerify key tok = false then .error .signatureInvalid
    else if expOk tok.claims w.now = false then .error .expired
    else if nbfOk tok.claims w.now = false then .error .notYetValid
    else .ok tok.claims

/-- Decoding one JSON string-typed struct field, per encoding/json:
a missing or null field keeps the zero value "", a string value is taken,
any other value is a type mismatch. -/
def decodeStringField (fields : List (String × ClaimValue)) (key : String) :
    Except JsonError String :=
  match lookupClaim fields key with
  | none => .ok ""
  | some (.str s) => .ok s
  | some .null => .ok ""
  | some _ => .error .typeMismatch

/-- Decoding one JSON value into an `ApplicationClaim`, per encoding/json:
only an object (or null, kept as the zero value) is accepted, with its
`namespace_id` and `application_id` fields decoded as strings and unknown
fields ignored. -/
def decodeOneClaim : ClaimValue → Except JsonError ApplicationClaim
  | .null => .ok ⟨"", ""⟩
  | .obj fields => do
    let ns ← decodeStringField fields "namespace_id"
    let app ← decodeStringField fields "application_id"
    pure ⟨ns, app⟩
  | _ => .error .typeMismatch

/-- Decoding a list of JSON values into application claims, element-wise. -/
def decodeClaimList : List ClaimValue → Except JsonError (List ApplicationClaim)
  | [] => .ok []
  | v :: vs => do
    let c ← decodeOneClaim v
    let cs ← decodeClaimList vs
    pure (c :: cs)

/-- Modelled from the spec: the JSON round trip of auth.go lines 88-96 —
`json.Marshal(claims["application_claim"])` followed by `json.Unmarshal`
into `[]ApplicationClaim` (Claim Extractor, spec 4.3; the acceptance rules
are those of encoding/json, absent from src/). A missing field marshals to
null, and null decodes into the empty slice; only a JSON array of objects
(or nulls) decodes successfully. -/
def decodeAppClaims : Option ClaimValue → Except JsonError (List ApplicationClaim)
  | none => .ok []
  | some .null => .ok []
  | some (.arr xs) => decodeClaimList xs
  | some _ => .error .typeMismatch

/-- The stages of `authenticate`, in source order, recorded as a trace so
that "stage not invoked" properties are stated observably. -/
inductive Stage where
  | publicCheck | tokenPresence | keyLoad | verify
  | extractClaims | resolveIdentity | matchClaims
deriving DecidableEq, Repr

/-- The embedding of `authenticate` (auth.go lines 44-119), instrumented
with the list of stages it executes. The result is `.ok ()` for a nil
error and `.error e` otherwise; every branch mirrors the source's order:
public flag, token presence, key loading (empty string, PEM decode,
PKCS#1 parse), JWT verification, claim decoding, empty-claims check,
identity resolution, and the final OR-match on the first claim. -/
def authenticateT (w : World) (env : Env) (req : Request) :
    Except AuthError Unit × List Stage :=
  if env.scwPublic = "true" then (.ok (), [.publicCheck])
  else
    let requestToken := req.getToken
    if requestToken = "" then
      (.error .emptyRequestToken, [.publicCheck, .tokenPresence])
    else
      let t2 : List Stage := [.publicCheck, .tokenPresence, .keyLoad]
      if env.scwPublicKey = "" then (.error .invalidPublicKey, t2)
      else
        match w.pemDecode env.scwPublicKey with
        | none => (.error .invalidPublicKey, t2)
        | some block =>
          match w.parsePKCS1PublicKey block with
          | none => (.error .invalidPublicKey, t2)
          | some parsedKey =>
            let t3 := t2 ++ [.verify]
            match verifyJWT w parsedKey requestToken with
            | .error e => (.error (.jwtError e), t3)
            | .ok claims =>
              let t4 := t3 ++ [.extractClaims]
              match decodeAppClaims (lookupClaim claims "application_claim") with
              | .error e => (.error (.jsonError e), t4)
              | .ok parsedClaims =>
                match parsedClaims with
                | [] => (.error .invalidClaims, t4)
                | applicationClaims :: _ =>
                  let t5 := t4 ++ [.resolveIdentity]
                  if env.scwApplicationID = "" then
                    (.error .invalidApplication, t5)
                  else if env.scwNamespaceID = "" then
                    (.error .invalidNamespace, t5)
                  else
                    let t6 := t5 ++ [.matchClaims]
                    if applicationClaims.NamespaceID ≠ env.scwNamespaceID ∧
                        applicationClaims.ApplicationID ≠ env.scwApplicationID then
                      (.error .invalidClaims, t6)
                    else (.ok (), t6)

/-- The verdict of `authenticate`: the error result without the trace. -/
def authenticate (w : World) (env : Env) (req : Request) :
    Except AuthError Unit :=
  (authenticateT w env req).1

/-! Concrete fixtures used to evaluate the embedding at explicit inputs. -/

/-- Bytes of a decoded PEM block fixture. -/
def demoBlock : PemBlock := [48, 130, 1, 10]

/-- The RSA public key fixture the PKCS#1 parser yields on `demoBlock`. -/
def demoKey : RSAPublicKey := ⟨3233, 17⟩

/-- A token whose first application claim is namespace `ns-1`,
application `app-9`. -/
def tokGood : Token :=
  ⟨.RS256, [("application_claim",
    .arr [.obj [("namespace_id", .str "ns-1"),
                ("application_id", .str "app-9")]])]⟩

/-- A token whose first application claim matches neither `ns-1` nor
`app-1`. -/
def tokMismatch : Token :=
  ⟨.RS256, [("application_claim",
    .arr [.obj [("namespace_id", .str "ns-2"),
                ("application_id", .str "app-9")]])]⟩

/-- A token carrying an empty application-claims array. -/
def tokEmpty : Token := ⟨.RS256, [("application_claim", .arr [])]⟩

/-- A token with no application-claims field at all. -/
def tokNoField : Token := ⟨.RS256, [("sub", .str "someone")]⟩

/-- A token whose application-claims field is a string, not an array. -/
def tokBadShape : Token := ⟨.RS256, [("application_claim", .str "oops")]⟩

/-- A token declaring the HMAC algorithm HS256 in its header. -/
def tokHS : Token :=
  ⟨.HS256, [("application_claim",
    .arr [.obj [("namespace_id", .str "ns-1"),
                ("application_id", .str "app-9")]])]⟩

/-- A token whose expiry (5) is in the past relative to `demoWorld.now`. -/
def tokExpired : Token :=
  ⟨.RS256, [("application_claim",
    .arr [.obj [("namespace_id", .str "ns-1"),
                ("application_id", .str "app-9")]]),
    ("exp", .num 5)]⟩

/-- A concrete world: one well-known PEM string decodes to `demoBlock`,
which parses to `demoKey`; a handful of compact strings parse to the token
fixtures; every signature verifies; the clock reads 100. -/
def demoWorld : World where
  pemDecode := fun s => if s = "PEM-KEY" then some demoBlock else none
  parsePKCS1PublicKey := fun b => if b = demoBlock then some demoKey else none
  parseCompact := fun s =>
    if s = "good" then some tokGood
    else if s = "mismatch" then some tokMismatch
    else if s = "empty" then some tokEmpty
    else if s = "nofield" then some tokNoField
    else if s = "badshape" then some tokBadShape
    else if s = "hs" then some tokHS
    else if s = "expired" then some tokExpired
    else none
  rsaVerify := fun _ _ => true
  now := 100

/-- `demoWorld` with a signature check that always fails (a token signed
with a different key than the configured one). -/
def demoWorldBadSig : World :=
  { demoWorld with rsaVerify := fun _ _ => false }

/-- The runtime identity fixture: private function, key `PEM-KEY`,
application `app-1`, namespace `ns-1`. -/
def demoEnv : Env :=
  ⟨"false", "PEM-KEY", "app-1", "ns-1"⟩

/-! Claim theorems. -/

/-- Claim C2: when the runtime identity is marked public (flag "true"),
authenticate returns success at the public check without executing any
token-inspecting stage, regardless of the token's presence or validity. -/
theorem c2_public_function_allows (w : World) (env : Env) (req : Request)
    (hpub : env.scwPublic = "true") :
    authenticateT w env req = (.ok (), [Stage.publicCheck]) := by
  simp [authenticateT, hpub]

/-- Witness for C2: a public identity with a garbage token still succeeds. -/
theorem c2_public_function_allows_witness :
    authenticateT demoWorld { demoEnv with scwPublic := "true" }
      { scwFunctionsToken := some "garbage" } = (.ok (), [Stage.publicCheck]) :=
  c2_public_function_allows demoWorld { demoEnv with scwPublic := "true" }
    { scwFunctionsToken := some "garbage" } rfl

/-- Claim C9: for a non-public identity and an absent or empty token
header, authenticate fails with the empty-request-token error and neither
the key-loading stage nor the token-verification stage is invoked. -/
theorem c9_no_token (w : World) (env : Env) (req : Request)
    (hpub : env.scwPublic ≠ "true") (htok : req.getToken = "") :
    authenticate w env req = .error .emptyRequestToken ∧
    Stage.keyLoad ∉ (authenticateT w env req).2 ∧
    Stage.verify ∉ (authenticateT w env req).2 := by
  simp [authenticate, authenticateT, hpub, htok]

/-- Witness for C9: private identity, header absent. -/
theorem c9_no_token_witness :
    authenticate demoWorld demoEnv { scwFunctionsToken := none } =
      .error .emptyRequestToken ∧
    Stage.keyLoad ∉ (authenticateT demoWorld demoEnv
      { scwFunctionsToken := none }).2 ∧
    Stage.verify ∉ (authenticateT demoWorld demoEnv
      { scwFunctionsToken := none }).2 :=
  c9_no_token demoWorld demoEnv { scwFunctionsToken := none }
    (by decide) rfl

/-- Claim C10: the public bypass triggers only on the exact flag value
"true"; any other flag value runs the check exactly as a private function
(here: identically to the flag value "false"). -/
theorem c10_strict_public_flag (w : World) (env : Env) (req : Request)
    (s : String) (h : s ≠ "true") :
    authenticateT w { env with scwPublic := s } req =
      authenticateT w { env with scwPublic := "false" } req := by
  simp [authenticateT, h]

/-- Witness for C10: the flag "TRUE" does not bypass; the check proceeds
and rejects a tokenless request just as a private function does. -/
theorem c10_strict_public_flag_witness :
    authenticateT demoWorld { demoEnv with scwPublic := "TRUE" }
        { scwFunctionsToken := none } =
      authenticateT demoWorld { demoEnv with scwPublic := "false" }
        { scwFunctionsToken := none } ∧
    authenticateT demoWorld { demoEnv with scwPublic := "TRUE" }
        { scwFunctionsToken := none } =
      (.error .emptyRequestToken, [Stage.publicCheck, Stage.tokenPresence]) :=
  ⟨c10_strict_public_flag demoWorld demoEnv { scwFunctionsToken := none }
    "TRUE" (by decide), rfl⟩

/-- Claim C6: every key-loading failure — empty configured key string, PEM
decoding finding no block, or PKCS#1 parsing failing on the block's bytes —
makes authenticate fail with exactly the generic invalid-public-key error,
which carries no parser diagnostic. -/
theorem c6_invalid_public_key (w : World) (env : Env) (req : Request)
    (hpub : env.scwPublic ≠ "true") (htok : req.getToken ≠ "")
    (hfail : env.scwPublicKey = "" ∨
      w.pemDecode env.scwPublicKey = none ∨
      ∃ b, w.pemDecode env.scwPublicKey = some b ∧
        w.parsePKCS1PublicKey b = none) :
    authenticate w env req = .error .invalidPublicKey := by
  rcases hfail with hkey | hpem | ⟨b, hb, hk⟩
  · simp [authenticate, authenticateT, hpub, htok, hkey]
  · by_cases hkey : env.scwPublicKey = ""
    · simp [authenticate, authenticateT, hpub, htok, hkey]
    · simp [authenticate, authenticateT, hpub, htok, hkey, hpem]
  · by_cases hkey : env.scwPublicKey = ""
    · simp [authenticate, authenticateT, hpub, htok, hkey]
    · simp [authenticate, authenticateT, hpub, htok, hkey, hb, hk]

/-- Witness for C6: a PEM string that decodes to no block. -/
theorem c6_invalid_public_key_witness :
    authenticate demoWorld { demoEnv with scwPublicKey := "not-a-pem" }
      { scwFunctionsToken := some "good" } = .error .invalidPublicKey :=
  c6_invalid_public_key demoWorld { demoEnv with scwPublicKey := "not-a-pem" }
    { scwFunctionsToken := some "good" } (by decide) (by decide)
    (Or.inr (Or.inl rfl))

/-- Claim C1: once the pipeline reaches the match stage (non-public
identity, token present, key loaded, JWT verified, first claim decoded)
and the runtime's ApplicationID and NamespaceID are both non-empty,
authenticate succeeds iff the claim's NamespaceID equals the identity's
NamespaceID or the claim's ApplicationID equals the identity's
ApplicationID (the deliberate OR-match). -/
theorem c1_or_match (w : World) (env : Env) (req : Request)
    (b : PemBlock) (k : RSAPublicKey) (m : MapClaims)
    (c : ApplicationClaim) (rest : List ApplicationClaim)
    (hpub : env.scwPublic ≠ "true") (htok : req.getToken ≠ "")
    (hkey : env.scwPublicKey ≠ "")
    (hb : w.pemDecode env.scwPublicKey = some b)
    (hk : w.parsePKCS1PublicKey b = some k)
    (hv : verifyJWT w k req.getToken = .ok m)
    (hd : decodeAppClaims (lookupClaim m "application_claim") = .ok (c :: rest))
    (happ : env.scwApplicationID ≠ "") (hns : env.scwNamespaceID ≠ "") :
    authenticate w env req = .ok () ↔
      (c.NamespaceID = env.scwNamespaceID ∨
       c.ApplicationID = env.scwApplicationID) := by
  simp only [authenticate, authenticateT, if_neg hpub, Request.getToken] at *
  simp only [if_neg htok, if_neg hkey, hb, hk, hv, hd, if_neg happ, if_neg hns]
  by_cases h1 : c.NamespaceID = env.scwNamespaceID
  · simp [h1]
  · by_cases h2 : c.ApplicationID = env.scwApplicationID
    · simp [h1, h2]
    · simp [h1, h2]

/-- Witness for C1: identity app-1/ns-1 with first claim ns-1/app-9 — the
NamespaceID matches while the ApplicationID does not, and the overall
verdict is success. -/
theorem c1_or_match_witness :
    authenticate demoWorld demoEnv { scwFunctionsToken := some "good" } =
      .ok () :=
  (c1_or_match demoWorld demoEnv { scwFunctionsToken := some "good" }
    demoBlock demoKey tokGood.claims ⟨"ns-1", "app-9"⟩ []
    (by decide) (by decide) (by decide) rfl rfl rfl rfl
    (by decide) (by decide)).mpr (Or.inl rfl)

/-- Claim C3: a token whose header declares an algorithm outside the
RSA-signature family is rejected by verification — for every possible
signature-check outcome (`w.rsaVerify` is arbitrary), authenticate fails —
so the caller-supplied algorithm header cannot steer key selection beyond
what the RSA key object supports. -/
theorem c3_non_rsa_alg_rejected (w : World) (env : Env) (req : Request)
    (b : PemBlock) (k : RSAPublicKey) (t : Token)
    (hpub : env.scwPublic ≠ "true") (htok : req.getToken ≠ "")
    (hkey : env.scwPublicKey ≠ "")
    (hb : w.pemDecode env.scwPublicKey = some b)
    (hk : w.parsePKCS1PublicKey b = some k)
    (hparse : w.parseCompact req.getToken = some t)
    (halg : t.alg.isRSAFamily = false) :
    authenticate w env req = .error (.jwtError .invalidSigningAlg) := by
  simp only [authenticate, authenticateT, Request.getToken] at *
  simp [if_neg hpub, if_neg htok, if_neg hkey, hb, hk, verifyJWT, hparse, halg]

/-- Witness for C3: an HS256 token is rejected even though `demoWorld`'s
signature check accepts everything. -/
theorem c3_non_rsa_alg_rejected_witness :
    authenticate demoWorld demoEnv { scwFunctionsToken := some "hs" } =
      .error (.jwtError .invalidSigningAlg) :=
  c3_non_rsa_alg_rejected demoWorld demoEnv { scwFunctionsToken := some "hs" }
    demoBlock demoKey tokHS (by decide) (by decide) (by decide) rfl rfl rfl rfl

/-- Counterexample to C4: token-verification failures do NOT surface as one
stable error kind — a bad signature and an expired token yield two distinct
raw jwt-library errors, neither of which is one of the package's declared
named errors. -/
theorem c4_counterexample :
    authenticate demoWorldBadSig demoEnv { scwFunctionsToken := some "good" } =
      .error (.jwtError .signatureInvalid) ∧
    authenticate demoWorld demoEnv { scwFunctionsToken := some "expired" } =
      .error (.jwtError .expired) ∧
    AuthError.isDeclaredError (.jwtError .signatureInvalid) = false ∧
    AuthError.jwtError .signatureInvalid ≠ AuthError.jwtError .expired :=
  ⟨rfl, rfl, rfl, by decide⟩

/-- Amended C4: on every token-verification failure, authenticate returns
the jwt library's error propagated unchanged (not a dedicated stable kind),
and none of the later stages — claim extraction, identity resolution,
matching — executes. -/
theorem c4_raw_error_propagated (w : World) (env : Env) (req : Request)
    (b : PemBlock) (k : RSAPublicKey) (e : JwtError)
    (hpub : env.scwPublic ≠ "true") (htok : req.getToken ≠ "")
    (hkey : env.scwPublicKey ≠ "")
    (hb : w.pemDecode env.scwPublicKey = some b)
    (hk : w.parsePKCS1PublicKey b = some k)
    (hv : verifyJWT w k req.getToken = .error e) :
    authenticate w env req = .error (.jwtError e) ∧
    Stage.extractClaims ∉ (authenticateT w env req).2 ∧
    Stage.resolveIdentity ∉ (authenticateT w env req).2 ∧
    Stage.matchClaims ∉ (authenticateT w env req).2 := by
  simp only [authenticate, authenticateT, Request.getToken] at *
  simp [if_neg hpub, if_neg htok, if_neg hkey, hb, hk, hv]

/-- Witness for amended C4: the bad-signature world propagates the raw
signature-invalid library error and stops. -/
theorem c4_raw_error_propagated_witness :
    authenticate demoWorldBadSig demoEnv { scwFunctionsToken := some "good" } =
      .error (.jwtError .signatureInvalid) ∧
    Stage.extractClaims ∉ (authenticateT demoWorldBadSig demoEnv
      { scwFunctionsToken := some "good" }).2 ∧
    Stage.resolveIdentity ∉ (authenticateT demoWorldBadSig demoEnv
      { scwFunctionsToken := some "good" }).2 ∧
    Stage.matchClaims ∉ (authenticateT demoWorldBadSig demoEnv
      { scwFunctionsToken := some "good" }).2 :=
  c4_raw_error_propagated demoWorldBadSig demoEnv
    { scwFunctionsToken := some "good" } demoBlock demoKey .signatureInvalid
    (by decide) (by decide) (by decide) rfl rfl rfl

/-- Counterexample to C5: the claim-mismatch failure and the empty-claims
failure produce the very same error value (`errorInvalidClaims`), so the
two conditions are not distinguishable in the verdict. -/
theorem c5_counterexample :
    authenticate demoWorld demoEnv { scwFunctionsToken := some "mismatch" } =
      .error .invalidClaims ∧
    authenticate demoWorld demoEnv { scwFunctionsToken := some "empty" } =
      .error .invalidClaims :=
  ⟨rfl, rfl⟩

/-- Amended C5: when the first decoded claim matches neither the runtime's
NamespaceID nor its ApplicationID, authenticate fails with the same shared
error `errorInvalidClaims` that the empty-claims case uses; there is no
separate claim-mismatch error kind. -/
theorem c5_mismatch_shared_error (w : World) (env : Env) (req : Request)
    (b : PemBlock) (k : RSAPublicKey) (m : MapClaims)
    (c : ApplicationClaim) (rest : List ApplicationClaim)
    (hpub : env.scwPublic ≠ "true") (htok : req.getToken ≠ "")
    (hkey : env.scwPublicKey ≠ "")
    (hb : w.pemDecode env.scwPublicKey = some b)
    (hk : w.parsePKCS1PublicKey b = some k)
    (hv : verifyJWT w k req.getToken = .ok m)
    (hd : decodeAppClaims (lookupClaim m "application_claim") = .ok (c :: rest))
    (happ : env.scwApplicationID ≠ "") (hns : env.scwNamespaceID ≠ "")
    (hcn : c.NamespaceID ≠ env.scwNamespaceID)
    (hca : c.ApplicationID ≠ env.scwApplicationID) :
    authenticate w env req = .error .invalidClaims := by
  simp only [authenticate, authenticateT, Request.getToken] at *
  simp [if_neg hpub, if_neg htok, if_neg hkey, hb, hk, hv, hd,
    if_neg happ, if_neg hns, hcn, hca]

/-- Witness for amended C5: first claim ns-2/app-9 against identity
app-1/ns-1 fails with the shared invalid-claims error. -/
theorem c5_mismatch_shared_error_witness :
    authenticate demoWorld demoEnv { scwFunctionsToken := some "mismatch" } =
      .error .invalidClaims :=
  c5_mismatch_shared_error demoWorld demoEnv
    { scwFunctionsToken := some "mismatch" } demoBlock demoKey
    tokMismatch.claims ⟨"ns-2", "app-9"⟩ []
    (by decide) (by decide) (by decide) rfl rfl rfl rfl
    (by decide) (by decide) (by decide) (by decide)

/-- Claim C7: a verified claim set whose application-claims field is absent
(treated as an empty sequence by the JSON round trip) or decodes to an
empty sequence makes authenticate fail with `errorInvalidClaims`. -/
theorem c7_missing_or_empty_claims (w : World) (env : Env) (req : Request)
    (b : PemBlock) (k : RSAPublicKey) (m : MapClaims)
    (hpub : env.scwPublic ≠ "true") (htok : req.getToken ≠ "")
    (hkey : env.scwPublicKey ≠ "")
    (hb : w.pemDecode env.scwPublicKey = some b)
    (hk : w.parsePKCS1PublicKey b = some k)
    (hv : verifyJWT w k req.getToken = .ok m)
    (hfield : lookupClaim m "application_claim" = none ∨
      lookupClaim m "application_claim" = some (.arr [])) :
    authenticate w env req = .error .invalidClaims := by
  have hd : decodeAppClaims (lookupClaim m "application_claim") = .ok [] := by
    rcases hfield with h | h <;> rw [h] <;> rfl
  simp only [authenticate, authenticateT, Request.getToken] at *
  simp [if_neg hpub, if_neg htok, if_neg hkey, hb, hk, hv, hd]

/-- Witness for C7: a token with no application-claims field at all is
rejected with the invalid-claims error. -/
theorem c7_missing_or_empty_claims_witness :
    authenticate demoWorld demoEnv { scwFunctionsToken := some "nofield" } =
      .error .invalidClaims :=
  c7_missing_or_empty_claims demoWorld demoEnv
    { scwFunctionsToken := some "nofield" } demoBlock demoKey
    tokNoField.claims (by decide) (by decide) (by decide) rfl rfl rfl
    (Or.inl rfl)

/-- Counterexample to C8: an application-claims field of the wrong shape
(a string) makes authenticate fail with the raw JSON library error, not
with `errorInvalidClaims`. -/
theorem c8_counterexample :
    authenticate demoWorld demoEnv { scwFunctionsToken := some "badshape" } =
      .error (.jsonError .typeMismatch) ∧
    AuthError.jsonError .typeMismatch ≠ AuthError.invalidClaims :=
  ⟨rfl, by decide⟩

/-- Amended C8: when the application-claims field is present but does not
decode as a sequence of ApplicationClaim records, authenticate fails with
the JSON decoding error propagated unchanged (a raw library error, not
`errorInvalidClaims`). -/
theorem c8_bad_shape_raw_json_error (w : World) (env : Env) (req : Request)
    (b : PemBlock) (k : RSAPublicKey) (m : MapClaims) (e : JsonError)
    (hpub : env.scwPublic ≠ "true") (htok : req.getToken ≠ "")
    (hkey : env.scwPublicKey ≠ "")
    (hb : w.pemDecode env.scwPublicKey = some b)
    (hk : w.parsePKCS1PublicKey b = some k)
    (hv : verifyJWT w k req.getToken = .ok m)
    (hd : decodeAppClaims (lookupClaim m "application_claim") = .error e) :
    authenticate w env req = .error (.jsonError e) := by
  simp only [authenticate, authenticateT, Request.getToken] at *
  simp [if_neg hpub, if_neg htok, if_neg hkey, hb, hk, hv, hd]

/-- Witness for amended C8: the string-shaped claims field propagates the
raw type-mismatch JSON error. -/
theorem c8_bad_shape_raw_json_error_witness :
    authenticate demoWorld demoEnv { scwFunctionsToken := some "badshape" } =
      .error (.jsonError .typeMismatch) :=
  c8_bad_shape_raw_json_error demoWorld demoEnv
    { scwFunctionsToken := some "badshape" } demoBlock demoKey
    tokBadShape.claims .typeMismatch
    (by decide) (by decide) (by decide) rfl rfl rfl rfl
